import Mathlib

/-!
Shallow embedding of the schema-aware dynamic query layer
(model.py, view.py, controller.py): value coercion, statement
construction, synthetic data generation, join resolution, ad-hoc
filter clauses and result shaping, together with an explicit trace of
the write statements, commits and rollbacks each mutating operation
sends to the database session.
-/

namespace DBApp

/-- Whitespace characters removed by the Python str.strip method
(the ASCII whitespace set). -/
def isPySpace (c : Char) : Bool :=
  c == ' ' || c == '\t' || c == '\n' || c == '\r' ||
  c == Char.ofNat 11 || c == Char.ofNat 12

/-- Model of the Python str.strip method: drop leading and trailing
whitespace. -/
def pyStrip (s : String) : String :=
  String.mk (((s.toList.dropWhile isPySpace).reverse.dropWhile isPySpace).reverse)

/-- The needle list is an initial segment of the haystack list. -/
def takeEq (needle hay : List Char) : Bool :=
  hay.take needle.length == needle

/-- The needle occurs as a contiguous sublist of the haystack. -/
def hasSub (needle : List Char) : List Char → Bool
  | [] => needle.isEmpty
  | c :: rest => takeEq needle (c :: rest) || hasSub needle rest

/-- Model of the Python substring test (needle in haystack). -/
def strContains (needle hay : String) : Bool :=
  hasSub needle.toList hay.toList

/-- Model of the Python str.startswith method. -/
def strStarts (hay needle : String) : Bool :=
  takeEq needle.toList hay.toList

/-- Model of the Python str.lower method on the ASCII range. -/
def pyLower (s : String) : String :=
  String.mk (s.toList.map Char.toLower)

/-- Consume the continuation of a Python digit run: further digits,
with single underscores allowed between digits.  Returns the leftover
input. -/
def digitRunCont : List Char → List Char
  | '_' :: c :: rest => if c.isDigit then digitRunCont rest else '_' :: c :: rest
  | c :: rest => if c.isDigit then digitRunCont rest else c :: rest
  | [] => []

/-- Consume a Python digit run (digit, then digits with single
underscores between digits).  Returns the leftover input, or none when
the input does not start with a digit. -/
def digitRun (l : List Char) : Option (List Char) :=
  match l with
  | c :: rest => if c.isDigit then some (digitRunCont rest) else none
  | [] => none

/-- Consume the mantissa of a Python float literal: an optional digit
run, an optional point, an optional fractional digit run, with at least
one digit present.  Returns the leftover input on success. -/
def floatMantissa (l : List Char) : Option (List Char) :=
  match digitRun l with
  | some rest =>
    match rest with
    | '.' :: r2 => some ((digitRun r2).getD r2)
    | _ => some rest
  | none =>
    match l with
    | '.' :: r2 => digitRun r2
    | _ => none

/-- Model of whether the Python float builtin accepts a string:
optional surrounding whitespace, optional sign, then either one of the
special words inf, infinity, nan (case-insensitive) or a decimal
mantissa with an optional exponent. -/
def pyFloatAccepts (s : String) : Bool :=
  let l0 := (pyStrip s).toList
  let l :=
    match l0 with
    | c :: rest => if c == '+' || c == '-' then rest else l0
    | [] => l0
  let low := l.map Char.toLower
  if low == "inf".toList || low == "infinity".toList || low == "nan".toList then
    true
  else
    match floatMantissa l with
    | none => false
    | some rest =>
      match rest with
      | [] => true
      | c :: r2 =>
        if c == 'e' || c == 'E' then
          let r3 :=
            match r2 with
            | s2 :: r4 => if s2 == '+' || s2 == '-' then r4 else r2
            | [] => r2
          match digitRun r3 with
          | some [] => true
          | _ => false
        else false

/-- Numeric value of a validated digit-and-underscore run. -/
def digitsVal (l : List Char) : Nat :=
  (l.filter Char.isDigit).foldl (fun a c => a * 10 + (c.toNat - 48)) 0

/-- Model of the Python int builtin on strings: optional surrounding
whitespace, optional sign, then a digit run covering the whole rest of
the input.  Returns the parsed integer, or none when the builtin would
raise ValueError. -/
def pyIntParse (s : String) : Option Int :=
  let l0 := (pyStrip s).toList
  let neg :=
    match l0 with
    | c :: _ => c == '-'
    | [] => false
  let l :=
    match l0 with
    | c :: rest => if c == '+' || c == '-' then rest else l0
    | [] => l0
  match digitRun l with
  | some [] => some (if neg then -(digitsVal l : Int) else (digitsVal l : Int))
  | _ => none

/-- Python values that flow to the database session as statement
parameters.  Numeric floats are represented by their accepted literal
text, since no operation of the program inspects the float value
itself. -/
inductive PyVal where
  | none
  | str (s : String)
  | int (i : Int)
  | float (lit : String)
  | bool (b : Bool)
deriving DecidableEq, Repr

/-- Errors raised by the embedded operations: ValueError with its
message, or an error surfaced by the database session. -/
inductive PyErr where
  | valueError (msg : String)
  | databaseError
deriving DecidableEq, Repr

/-- Model of Database._cast_value_from_input: convert a raw string to a
column-typed value.  A missing or blank value becomes the null value;
parse failures raise ValueError. -/
def cast_value_from_input (value : Option String) (data_type : String) :
    Except PyErr (Option PyVal) :=
  match value with
  | .none => .ok .none
  | .some v =>
    let dt := pyLower data_type
    let s := pyStrip v
    if s = "" then .ok .none
    else if strContains "character" dt || strContains "text" dt then
      .ok (some (.str s))
    else if strStarts dt "integer" || dt == "bigint" || dt == "smallint" then
      match pyIntParse s with
      | some n => .ok (some (.int n))
      | none => .error (.valueError "invalid literal for int")
    else if strStarts dt "numeric" || strStarts dt "double" || strStarts dt "real" then
      if pyFloatAccepts s then .ok (some (.float s))
      else .error (.valueError "could not convert string to float")
    else if dt = "boolean" then
      if ["true", "t", "1", "yes", "y"].contains (pyLower s) then .ok (some (.bool true))
      else if ["false", "f", "0", "no", "n"].contains (pyLower s) then .ok (some (.bool false))
      else .error (.valueError "Invalid boolean value")
    else if strContains "date" dt || strContains "timestamp" dt then
      .ok (some (.str s))
    else .ok (some (.str s))

/-- One column of the information-schema column metadata: name, native
type name, nullability, and the optional database-side default
expression (a serial primary key carries a nextval default). -/
structure ColumnMeta where
  name : String
  dataType : String
  isNullable : Bool
  columnDefault : Option String
deriving DecidableEq, Repr

/-- One foreign-key edge of the information schema: a child table and
column referencing a parent table and column. -/
structure FKEdge where
  childTable : String
  childColumn : String
  parentTable : String
  parentColumn : String
deriving DecidableEq, Repr

/-- The live schema metadata the operations introspect: per-table
column lists in ordinal position, the primary-key rows in metadata
enumeration order, and the foreign-key edges in metadata enumeration
order. -/
structure Schema where
  tables : List (String × List ColumnMeta)
  pks : List (String × String)
  fks : List FKEdge
deriving DecidableEq, Repr

/-- First-match association-list lookup, modelling a Python dict whose
keys are unique. -/
def assoc {α : Type} (l : List (String × α)) (k : String) : Option α :=
  match l with
  | [] => Option.none
  | (k2, v) :: rest => if k2 = k then some v else assoc rest k

/-- Model of Database._find_pk_column: the metadata query filters the
primary-key rows by table name and fetchone takes the first row. -/
def find_pk_column (schema : Schema) (table : String) : Option String :=
  ((schema.pks.filter (fun p => p.1 == table)).head?).map Prod.snd

/-- The per-column generation expression emitted into the bulk INSERT
SELECT list by Database.generate_rows_sql. -/
inductive GenExpr where
  | fkPick (ftable fcol : String)
  | email
  | randInt
  | randNumeric
  | randBool
  | randTimestamp
  | randDate
  | randToken (len : Nat)
  | nullExpr
deriving DecidableEq, Repr

/-- The write statements, commits and rollbacks an operation sends to
the database session.  Metadata introspection queries are read-only
and are not traced. -/
inductive Event where
  | execInsert (table : String) (cols : List String) (params : List PyVal)
  | execUpdate (table col idcol : String) (params : List PyVal)
  | execDelete (table idcol : String) (params : List PyVal)
  | execGenerate (table : String) (cols : List String) (exprs : List GenExpr) (count : Int)
  | commit
  | rollback
deriving DecidableEq, Repr

/-- Turn the optional cast result into the parameter actually bound in
the statement (Python passes None for the null value). -/
def pvOfOpt : Option PyVal → PyVal
  | Option.none => .none
  | some v => v

/-- The column-and-parameter accumulation loop of
Database.insert_entry_validated: walk the column-type mapping in
order, take the columns present in the supplied values mapping, cast
each value (blank values become the null value), and propagate any
cast error. -/
def buildInsertCols (values_dict : List (String × String)) :
    List (String × String) → Except PyErr (List String × List PyVal)
  | [] => .ok ([], [])
  | (col, dtype) :: rest =>
    match assoc values_dict col with
    | Option.none => buildInsertCols values_dict rest
    | some val =>
      let pvE : Except PyErr (Option PyVal) :=
        if val = "" then .ok Option.none
        else cast_value_from_input (some val) dtype
      match pvE with
      | .error e => .error e
      | .ok pv =>
        match buildInsertCols values_dict rest with
        | .error e => .error e
        | .ok (cs, vs) => .ok (col :: cs, pvOfOpt pv :: vs)

/-- Model of Database.insert_entry_validated.  The execOk flag models
whether the database session executes the INSERT without raising. -/
def insert_entry_validated (table : String)
    (values_dict col_types : List (String × String)) (execOk : Bool) :
    List Event × Except PyErr Bool :=
  match buildInsertCols values_dict col_types with
  | .error e => ([], .error e)
  | .ok (cols, vals) =>
    if cols.isEmpty then ([], .error (.valueError "No columns to insert."))
    else if execOk then ([.execInsert table cols vals, .commit], .ok true)
    else ([.execInsert table cols vals], .error .databaseError)

/-- Model of Database.update_entry_validated: validate the column,
cast the new value, locate the single-column primary key, then execute
the UPDATE; on success commit and report whether a row was affected. -/
def update_entry_validated (schema : Schema)
    (table column row_id new_value : String)
    (col_types : List (String × String)) (execOk : Bool) (affected : Int) :
    List Event × Except PyErr Bool :=
  match assoc col_types column with
  | Option.none => ([], .error (.valueError "Unknown column"))
  | some dtype =>
    match cast_value_from_input (some new_value) dtype with
    | .error e => ([], .error e)
    | .ok casted =>
      match find_pk_column schema table with
      | Option.none => ([], .error (.valueError "Primary key column not found for table"))
      | some id_col =>
        if execOk then
          ([.execUpdate table column id_col [pvOfOpt casted, .str row_id], .commit],
           .ok (affected > 0))
        else
          ([.execUpdate table column id_col [pvOfOpt casted, .str row_id]],
           .error .databaseError)

/-- Model of Database.delete_entry: locate the single-column primary
key, then execute the DELETE; on success commit and report whether a
row was affected. -/
def delete_entry (schema : Schema) (table row_id : String)
    (execOk : Bool) (affected : Int) :
    List Event × Except PyErr Bool :=
  match find_pk_column schema table with
  | Option.none => ([], .error (.valueError "Primary key not found"))
  | some id_col =>
    if execOk then
      ([.execDelete table id_col [.str row_id], .commit], .ok (affected > 0))
    else
      ([.execDelete table id_col [.str row_id]], .error .databaseError)

/-- The foreign-key dictionary of Database.generate_rows_sql: edges
whose child is the given table keyed by child column, later metadata
rows overwriting earlier ones. -/
def fk_lookup (schema : Schema) (table colName : String) :
    Option (String × String) :=
  ((schema.fks.filter (fun e => e.childTable == table && e.childColumn == colName)).getLast?).map
    (fun e => (e.parentTable, e.parentColumn))

/-- The NOT-NULL-without-default column names of a column list, as
selected by the metadata query of Database.generate_rows_sql. -/
def not_null_cols (cols : List ColumnMeta) : List String :=
  (cols.filter (fun c => !c.isNullable && c.columnDefault == Option.none)).map (·.name)

/-- The generation expression Database.generate_rows_sql chooses for
one insertable column, first matching rule winning: foreign-key
lookup, email token, integer, numeric, boolean, timestamp, date,
character or text, and otherwise the NULL literal. -/
def genExprFor (schema : Schema) (table colName dataType : String) : GenExpr :=
  let dt := pyLower dataType
  match fk_lookup schema table colName with
  | some (ft, fc) => .fkPick ft fc
  | Option.none =>
    if strContains "email" (pyLower colName) then .email
    else if strStarts dt "integer" || dt == "bigint" || dt == "smallint" then .randInt
    else if strStarts dt "numeric" || dt == "real" || dt == "double precision" then .randNumeric
    else if dt = "boolean" then .randBool
    else if strContains "timestamp" dt then .randTimestamp
    else if strContains "date" dt then .randDate
    else if strContains "character" dt || strContains "text" dt then .randToken 10
    else .nullExpr

/-- The column list and expression list Database.generate_rows_sql
builds for a table: none when the table is missing or has no columns;
otherwise the NOT-NULL-without-default columns in ordinal position,
each paired with its generation expression. -/
def genInsertCols (schema : Schema) (table : String) :
    Option (List String × List GenExpr) :=
  (assoc schema.tables table).bind (fun cols =>
    if cols.isEmpty then Option.none
    else
      let nn := not_null_cols cols
      let chosen := cols.filter (fun c => nn.contains c.name)
      some (chosen.map (·.name),
            chosen.map (fun c => genExprFor schema table c.name c.dataType)))

/-- Model of Database.generate_rows_sql: build the insertable column
and expression lists, fail before any write when the table is missing
or no column is insertable, then execute the bulk INSERT inside an
explicit try block: success commits, a session failure rolls back and
re-raises. -/
def generate_rows_sql (schema : Schema) (table : String) (count : Int)
    (execOk : Bool) : List Event × Except PyErr Int :=
  match genInsertCols schema table with
  | Option.none => ([], .error (.valueError "Table not found or has no columns"))
  | some (cs, es) =>
    if cs.isEmpty then
      ([], .error (.valueError "No columns to insert (all are PK/DEFAULT)"))
    else if execOk then
      ([.execGenerate table cs es count, .commit], .ok count)
    else
      ([.execGenerate table cs es count, .rollback], .error .databaseError)

/-- Wrap an identifier in double quotes, as the join and filter paths
do with Python f-strings. -/
def dq (s : String) : String := "\"" ++ s ++ "\""

/-- Whether a foreign-key edge links the two tables in either the
child or the parent role, as selected by the metadata query of
Database.find_join_expression. -/
def edgeLinks (t1 t2 : String) (e : FKEdge) : Bool :=
  (e.childTable == t1 && e.parentTable == t2) ||
  (e.childTable == t2 && e.parentTable == t1)

/-- Model of Database.find_join_expression: fetchone takes the first
foreign-key edge linking the two tables in either direction and
formats the equality of the child column with the referenced parent
column, identifiers double-quoted; none when no edge exists. -/
def find_join_expression (schema : Schema) (t1 t2 : String) : Option String :=
  ((schema.fks.filter (edgeLinks t1 t2)).head?).map
    (fun e => dq e.childTable ++ "." ++ dq e.childColumn ++ " = " ++
              dq e.parentTable ++ "." ++ dq e.parentColumn)

/-- The FROM-clause construction of AppController.multi_attribute_search
for a two-table search: an inner join on the discovered foreign-key
condition, or a CROSS JOIN fallback together with a warning flag when
no relation is found. -/
def searchFromClause (schema : Schema) (t1 t2 : String) : String × Bool :=
  match find_join_expression schema t1 t2 with
  | Option.none => (dq t1 ++ " CROSS JOIN " ++ dq t2, true)
  | some j => (dq t1 ++ " JOIN " ++ dq t2 ++ " ON " ++ j, false)

/-- Model of Interface._literal_for_numeric: keep the string when the
Python float builtin accepts it, otherwise fall back to the literal
zero. -/
def literal_for_numeric (s : String) : String :=
  if pyFloatAccepts s then s else "0"

/-- The single-quote character, used by the literal quoting path. -/
def sqChar : Char := Char.ofNat 39

/-- Double every single quote in the string, as Python s.replace does
in Interface._quote_literal. -/
def escQuotes (s : String) : String :=
  String.mk (s.toList.foldr
    (fun c acc => if c == sqChar then sqChar :: sqChar :: acc else c :: acc) [])

/-- Model of Interface._quote_literal: wrap in single quotes with
embedded single quotes doubled. -/
def quote_literal (s : String) : String :=
  String.singleton sqChar ++ escQuotes s ++ String.singleton sqChar

/-- The numeric-category test of Interface.build_filter_clause. -/
def numericFilterTest (dt : String) : Bool :=
  strStarts dt "integer" ||
  ["bigint", "smallint", "numeric", "double precision", "real"].contains dt

/-- The text-category test of Interface.build_filter_clause. -/
def textFilterTest (dt : String) : Bool :=
  strContains "character" dt || dt == "text"

/-- The temporal-category test of Interface.build_filter_clause. -/
def temporalFilterTest (dt : String) : Bool :=
  strContains "date" dt || strContains "timestamp" dt

/-- Model of Interface.build_filter_clause.  The branch taken decides
how many prompts the user answers; in1 and in2 are the answers to the
first and second prompt of the taken branch (one-prompt branches never
read in2). -/
def build_filter_clause (table column data_type in1 in2 : String) : String :=
  let dt := pyLower data_type
  let col_ref := dq table ++ "." ++ dq column
  if numericFilterTest dt then
    let lo := pyStrip in1
    let hi := pyStrip in2
    let clauses :=
      (if lo ≠ "" then [col_ref ++ " >= " ++ literal_for_numeric lo] else []) ++
      (if hi ≠ "" then [col_ref ++ " <= " ++ literal_for_numeric hi] else [])
    if clauses.isEmpty then "TRUE" else String.intercalate " AND " clauses
  else if textFilterTest dt then
    let pat := pyStrip in1
    if pat = "" then "TRUE" else col_ref ++ " ILIKE " ++ quote_literal pat
  else if dt = "boolean" then
    let val := pyLower (pyStrip in1)
    if ["true", "t", "1", "yes", "y"].contains val then col_ref ++ " = TRUE"
    else if ["false", "f", "0", "no", "n"].contains val then col_ref ++ " = FALSE"
    else "TRUE"
  else if temporalFilterTest dt then
    let lo := pyStrip in1
    let hi := pyStrip in2
    let clauses :=
      (if lo ≠ "" then [col_ref ++ " >= " ++ quote_literal lo] else []) ++
      (if hi ≠ "" then [col_ref ++ " <= " ++ quote_literal hi] else [])
    if clauses.isEmpty then "TRUE" else String.intercalate " AND " clauses
  else
    let val := pyStrip in1
    if val = "" then "TRUE" else col_ref ++ " = " ++ quote_literal val

/-- Model of Database.execute_raw_select over the rows the dict cursor
returns (each row an ordered list of column-name and value pairs):
the row tuples, paired with the column names taken from the first row
or empty when no row came back. -/
def execute_raw_select (rows : List (List (String × PyVal))) :
    List (List PyVal) × List String :=
  (rows.map (fun r => r.map Prod.snd),
   match rows with
   | [] => []
   | r :: _ => r.map Prod.fst)

/-- Model of Database.execute_prepared_select: binds the supplied
parameters positionally into the template and shapes the result rows
exactly as execute_raw_select does. -/
def execute_prepared_select (template : String) (params : List PyVal)
    (rows : List (List (String × PyVal))) :
    List (List PyVal) × List String :=
  (rows.map (fun r => r.map Prod.snd),
   match rows with
   | [] => []
   | r :: _ => r.map Prod.fst)

/-- The intercalate accumulator on an empty tail. -/
theorem intercalate_go_nil (acc s : String) :
    String.intercalate.go acc s [] = acc := rfl

/-- The intercalate accumulator on a one-element tail. -/
theorem intercalate_go_one (acc s b : String) :
    String.intercalate.go acc s [b] = acc ++ s ++ b := rfl

/-- C10: a query returning zero rows yields an empty row list paired
with an empty column-name list, for both the ad-hoc search executor
and the prepared-report executor; column names come from the first
result row when one exists. -/
theorem c10_empty_result_empty_columns :
    execute_raw_select [] = ([], []) ∧
    (∀ template params, execute_prepared_select template params [] = ([], [])) ∧
    (∀ r rs, (execute_raw_select (r :: rs)).2 = r.map Prod.fst) :=
  ⟨rfl, fun _ _ => rfl, fun _ _ => rfl⟩

/-- C8: join resolution searches the foreign-key edges with the table
pair in either child or parent role; when an edge exists, the first
discovered edge yields an inner join whose condition equates the
double-quoted child foreign-key column with the double-quoted parent
referenced column, and when none exists the caller falls back to an
unconditioned cross join with the warning flag set. -/
theorem c8_join_resolution (schema : Schema) (t1 t2 : String) :
    (∀ e, (schema.fks.filter (edgeLinks t1 t2)).head? = some e →
      searchFromClause schema t1 t2 =
        (dq t1 ++ " JOIN " ++ dq t2 ++ " ON " ++
          (dq e.childTable ++ "." ++ dq e.childColumn ++ " = " ++
           dq e.parentTable ++ "." ++ dq e.parentColumn), false)) ∧
    (schema.fks.filter (edgeLinks t1 t2) = [] →
      searchFromClause schema t1 t2 = (dq t1 ++ " CROSS JOIN " ++ dq t2, true)) := by
  constructor
  · intro e he
    simp [searchFromClause, find_join_expression, he]
  · intro h
    simp [searchFromClause, find_join_expression, h]

/-- C8 witness: the orders-to-customers foreign key yields the inner
join condition of the specification scenario, and two unrelated tables
yield the cross-join fallback with the warning flag. -/
theorem c8_join_resolution_witness :
    searchFromClause ⟨[], [], [⟨"orders", "customer_id", "customers", "id"⟩]⟩
        "orders" "customers" =
      ("\"orders\"" ++ " JOIN " ++ "\"customers\"" ++ " ON " ++
        ("\"orders\"" ++ "." ++ "\"customer_id\"" ++ " = " ++
         "\"customers\"" ++ "." ++ "\"id\""), false) ∧
    searchFromClause ⟨[], [], []⟩ "orders" "customers" =
      ("\"orders\"" ++ " CROSS JOIN " ++ "\"customers\"", true) :=
  ⟨(c8_join_resolution ⟨[], [], [⟨"orders", "customer_id", "customers", "id"⟩]⟩
      "orders" "customers").1 ⟨"orders", "customer_id", "customers", "id"⟩ rfl,
   (c8_join_resolution ⟨[], [], []⟩ "orders" "customers").2 rfl⟩

/-- C7: a numeric filter bound that the float builtin rejects is
replaced by the literal zero in the emitted predicate fragment; the
clause construction is total, so a malformed bound never raises. -/
theorem c7_malformed_bound_is_zero (table column data_type in1 in2 : String)
    (hnum : numericFilterTest (pyLower data_type) = true)
    (hlo : pyStrip in1 ≠ "")
    (hbad : pyFloatAccepts (pyStrip in1) = false) :
    literal_for_numeric (pyStrip in1) = "0" ∧
    build_filter_clause table column data_type in1 in2 =
      String.intercalate " AND "
        ([dq table ++ "." ++ dq column ++ " >= " ++ "0"] ++
         (if pyStrip in2 ≠ "" then
            [dq table ++ "." ++ dq column ++ " <= " ++ literal_for_numeric (pyStrip in2)]
          else [])) := by
  have hz : literal_for_numeric (pyStrip in1) = "0" := by
    simp [literal_for_numeric, hbad]
  refine ⟨hz, ?_⟩
  simp only [build_filter_clause, hnum, if_true, hlo, hz, ite_not]
  by_cases h2 : pyStrip in2 = "" <;>
    simp [h2, List.isEmpty, String.intercalate, intercalate_go_nil, intercalate_go_one]

/-- C7 witness: the bound abc fails float parsing, and the emitted
fragment compares against the literal zero. -/
theorem c7_malformed_bound_is_zero_witness :
    literal_for_numeric (pyStrip "abc") = "0" ∧
    build_filter_clause "t" "c" "numeric" "abc" "" =
      String.intercalate " AND "
        ([dq "t" ++ "." ++ dq "c" ++ " >= " ++ "0"] ++
         (if pyStrip "" ≠ "" then
            [dq "t" ++ "." ++ dq "c" ++ " <= " ++ literal_for_numeric (pyStrip "")]
          else [])) :=
  c7_malformed_bound_is_zero "t" "c" "numeric" "abc" ""
    (by decide) (by decide) (by decide)

/-- C9: for the numeric and the temporal filter branches, two blank
bounds yield the always-true predicate TRUE, exactly one bound yields
only that comparison clause, and two bounds yield the two clauses
joined with AND. -/
theorem c9_bound_clause_shapes (table column data_type in1 in2 : String) :
    (numericFilterTest (pyLower data_type) = true →
      (pyStrip in1 = "" → pyStrip in2 = "" →
        build_filter_clause table column data_type in1 in2 = "TRUE") ∧
      (pyStrip in1 ≠ "" → pyStrip in2 = "" →
        build_filter_clause table column data_type in1 in2 =
          dq table ++ "." ++ dq column ++ " >= " ++ literal_for_numeric (pyStrip in1)) ∧
      (pyStrip in1 = "" → pyStrip in2 ≠ "" →
        build_filter_clause table column data_type in1 in2 =
          dq table ++ "." ++ dq column ++ " <= " ++ literal_for_numeric (pyStrip in2)) ∧
      (pyStrip in1 ≠ "" → pyStrip in2 ≠ "" →
        build_filter_clause table column data_type in1 in2 =
          (dq table ++ "." ++ dq column ++ " >= " ++ literal_for_numeric (pyStrip in1)) ++
          " AND " ++
          (dq table ++ "." ++ dq column ++ " <= " ++ literal_for_numeric (pyStrip in2)))) ∧
    (numericFilterTest (pyLower data_type) = false →
      textFilterTest (pyLower data_type) = false →
      pyLower data_type ≠ "boolean" →
      temporalFilterTest (pyLower data_type) = true →
      (pyStrip in1 = "" → pyStrip in2 = "" →
        build_filter_clause table column data_type in1 in2 = "TRUE") ∧
      (pyStrip in1 ≠ "" → pyStrip in2 = "" →
        build_filter_clause table column data_type in1 in2 =
          dq table ++ "." ++ dq column ++ " >= " ++ quote_literal (pyStrip in1)) ∧
      (pyStrip in1 = "" → pyStrip in2 ≠ "" →
        build_filter_clause table column data_type in1 in2 =
          dq table ++ "." ++ dq column ++ " <= " ++ quote_literal (pyStrip in2)) ∧
      (pyStrip in1 ≠ "" → pyStrip in2 ≠ "" →
        build_filter_clause table column data_type in1 in2 =
          (dq table ++ "." ++ dq column ++ " >= " ++ quote_literal (pyStrip in1)) ++
          " AND " ++
          (dq table ++ "." ++ dq column ++ " <= " ++ quote_literal (pyStrip in2)))) := by
  constructor
  · intro hnum
    refine ⟨?_, ?_, ?_, ?_⟩ <;> intro h1 h2 <;>
      simp [build_filter_clause, hnum, h1, h2, List.isEmpty, String.intercalate,
            intercalate_go_nil, intercalate_go_one]
  · intro hnum htext hbool htemp
    refine ⟨?_, ?_, ?_, ?_⟩ <;> intro h1 h2 <;>
      simp [build_filter_clause, hnum, htext, hbool, htemp, h1, h2,
            List.isEmpty, String.intercalate, intercalate_go_nil, intercalate_go_one]

/-- C9 witness: a numeric column with both bounds blank yields TRUE, a
single lower bound yields one comparison, and a date column with both
bounds yields the two quoted comparisons joined with AND. -/
theorem c9_bound_clause_shapes_witness :
    build_filter_clause "orders" "amount" "numeric" "" "" = "TRUE" ∧
    build_filter_clause "orders" "amount" "numeric" "10" "" =
      dq "orders" ++ "." ++ dq "amount" ++ " >= " ++ literal_for_numeric (pyStrip "10") ∧
    build_filter_clause "t" "c" "date" "2020-01-01" "2021-01-01" =
      (dq "t" ++ "." ++ dq "c" ++ " >= " ++ quote_literal (pyStrip "2020-01-01")) ++
      " AND " ++
      (dq "t" ++ "." ++ dq "c" ++ " <= " ++ quote_literal (pyStrip "2021-01-01")) :=
  ⟨((c9_bound_clause_shapes "orders" "amount" "numeric" "" "").1 (by decide)).1
      (by decide) (by decide),
   ((c9_bound_clause_shapes "orders" "amount" "numeric" "10" "").1 (by decide)).2.1
      (by decide) (by decide),
   ((c9_bound_clause_shapes "t" "c" "date" "2020-01-01" "2021-01-01").2
      (by decide) (by decide) (by decide) (by decide)).2.2.2
      (by decide) (by decide)⟩

/-- C5: when a table has no discoverable single-column primary key, an
update whose column exists and whose value casts, and any delete, fail
with the primary-key-missing error and an empty write trace: no UPDATE
or DELETE statement reaches the database session. -/
theorem c5_pk_missing_no_write (schema : Schema)
    (table column row_id new_value : String)
    (col_types : List (String × String)) (execOk : Bool) (affected : Int)
    (dtype : String) (casted : Option PyVal)
    (hcol : assoc col_types column = some dtype)
    (hcast : cast_value_from_input (some new_value) dtype = .ok casted)
    (hpk : find_pk_column schema table = Option.none) :
    update_entry_validated schema table column row_id new_value col_types execOk affected =
      ([], .error (.valueError "Primary key column not found for table")) ∧
    delete_entry schema table row_id execOk affected =
      ([], .error (.valueError "Primary key not found")) := by
  constructor
  · simp [update_entry_validated, hcol, hcast, hpk]
  · simp [delete_entry, hpk]

/-- C5 witness: a schema with no primary-key rows rejects update and
delete with an empty write trace. -/
theorem c5_pk_missing_no_write_witness :
    update_entry_validated ⟨[("t", [⟨"c", "text", true, Option.none⟩])], [], []⟩
        "t" "c" "7" "v" [("c", "text")] true 1 =
      ([], .error (.valueError "Primary key column not found for table")) ∧
    delete_entry ⟨[("t", [⟨"c", "text", true, Option.none⟩])], [], []⟩ "t" "7" true 1 =
      ([], .error (.valueError "Primary key not found")) :=
  c5_pk_missing_no_write ⟨[("t", [⟨"c", "text", true, Option.none⟩])], [], []⟩
    "t" "c" "7" "v" [("c", "text")] true 1 "text" (some (.str "v"))
    rfl rfl rfl

/-- C1 counterexample: at a concrete single-row insert on which the
database session raises, the error is propagated while the trace holds
no rollback, so the claim that every mutating operation rolls back
before propagating a session error fails on the code. -/
theorem c1_rollback_counterexample :
    (insert_entry_validated "t" [("a", "x")] [("a", "text")] false).2 =
      .error .databaseError ∧
    (insert_entry_validated "t" [("a", "x")] [("a", "text")] false).1 =
      [.execInsert "t" ["a"] [.str "x"]] ∧
    Event.rollback ∉ [Event.execInsert "t" ["a"] [PyVal.str "x"]] :=
  ⟨rfl, rfl, by decide⟩

/-- C1 amended: every mutating operation commits on success; on a
session failure bulk generation rolls back before re-raising, while
single-row insert, update and delete propagate the error without
issuing any rollback. -/
theorem c1_transaction_boundaries (schema : Schema) (table : String) (count : Int)
    (vd ct : List (String × String)) (column row_id new_value : String) (aff : Int)
    (cs : List String) (es : List GenExpr) (cols : List String) (vals : List PyVal)
    (dtype : String) (cv : Option PyVal) (idc : String)
    (hg : genInsertCols schema table = some (cs, es)) (hg2 : cs ≠ [])
    (hi : buildInsertCols vd ct = .ok (cols, vals)) (hi2 : cols ≠ [])
    (hu : assoc ct column = some dtype)
    (hc : cast_value_from_input (some new_value) dtype = .ok cv)
    (hpk : find_pk_column schema table = some idc) :
    generate_rows_sql schema table count true =
      ([.execGenerate table cs es count, .commit], .ok count) ∧
    insert_entry_validated table vd ct true =
      ([.execInsert table cols vals, .commit], .ok true) ∧
    update_entry_validated schema table column row_id new_value ct true aff =
      ([.execUpdate table column idc [pvOfOpt cv, .str row_id], .commit],
       .ok (aff > 0)) ∧
    delete_entry schema table row_id true aff =
      ([.execDelete table idc [.str row_id], .commit], .ok (aff > 0)) ∧
    generate_rows_sql schema table count false =
      ([.execGenerate table cs es count, .rollback], .error .databaseError) ∧
    insert_entry_validated table vd ct false =
      ([.execInsert table cols vals], .error .databaseError) ∧
    update_entry_validated schema table column row_id new_value ct false aff =
      ([.execUpdate table column idc [pvOfOpt cv, .str row_id]],
       .error .databaseError) ∧
    delete_entry schema table row_id false aff =
      ([.execDelete table idc [.str row_id]], .error .databaseError) := by
  have hcs : cs.isEmpty = false := by
    cases cs with
    | nil => exact absurd rfl hg2
    | cons a l => rfl
  have hcols : cols.isEmpty = false := by
    cases cols with
    | nil => exact absurd rfl hi2
    | cons a l => rfl
  refine ⟨?_, ?_, ?_, ?_, ?_, ?_, ?_, ?_⟩ <;>
    simp [generate_rows_sql, insert_entry_validated, update_entry_validated,
          delete_entry, hg, hcs, hi, hcols, hu, hc, hpk]

/-- C1 witness: the transaction-boundary theorem instantiated on a
one-column schema, with the generation, insert, update and delete
preconditions discharged by evaluation. -/
theorem c1_transaction_boundaries_witness :
    generate_rows_sql ⟨[("t", [⟨"a", "text", false, Option.none⟩])], [("t", "id")], []⟩
        "t" 5 true =
      ([.execGenerate "t" ["a"] [.randToken 10] 5, .commit], .ok 5) ∧
    insert_entry_validated "t" [("a", "x")] [("a", "text")] true =
      ([.execInsert "t" ["a"] [.str "x"], .commit], .ok true) ∧
    update_entry_validated ⟨[("t", [⟨"a", "text", false, Option.none⟩])], [("t", "id")], []⟩
        "t" "a" "7" "y" [("a", "text")] true 1 =
      ([.execUpdate "t" "a" "id" [pvOfOpt (some (.str "y")), .str "7"], .commit],
       .ok ((1 : Int) > 0)) ∧
    delete_entry ⟨[("t", [⟨"a", "text", false, Option.none⟩])], [("t", "id")], []⟩
        "t" "7" true 1 =
      ([.execDelete "t" "id" [.str "7"], .commit], .ok ((1 : Int) > 0)) ∧
    generate_rows_sql ⟨[("t", [⟨"a", "text", false, Option.none⟩])], [("t", "id")], []⟩
        "t" 5 false =
      ([.execGenerate "t" ["a"] [.randToken 10] 5, .rollback], .error .databaseError) ∧
    insert_entry_validated "t" [("a", "x")] [("a", "text")] false =
      ([.execInsert "t" ["a"] [.str "x"]], .error .databaseError) ∧
    update_entry_validated ⟨[("t", [⟨"a", "text", false, Option.none⟩])], [("t", "id")], []⟩
        "t" "a" "7" "y" [("a", "text")] false 1 =
      ([.execUpdate "t" "a" "id" [pvOfOpt (some (.str "y")), .str "7"]],
       .error .databaseError) ∧
    delete_entry ⟨[("t", [⟨"a", "text", false, Option.none⟩])], [("t", "id")], []⟩
        "t" "7" false 1 =
      ([.execDelete "t" "id" [.str "7"]], .error .databaseError) :=
  c1_transaction_boundaries
    ⟨[("t", [⟨"a", "text", false, Option.none⟩])], [("t", "id")], []⟩
    "t" 5 [("a", "x")] [("a", "text")] "a" "7" "y" 1
    ["a"] [.randToken 10] ["a"] [.str "x"] "text" (some (.str "y")) "id"
    rfl (by decide) rfl (by decide) rfl rfl rfl

/-- The column list genInsertCols chooses is drawn from the
NOT-NULL-without-default column names of the table. -/
theorem genInsertCols_subset (schema : Schema) (table : String)
    (cols : List ColumnMeta) (cs : List String) (es : List GenExpr)
    (ht : assoc schema.tables table = some cols)
    (hgen : genInsertCols schema table = some (cs, es)) :
    ∀ c ∈ cs, c ∈ not_null_cols cols := by
  unfold genInsertCols at hgen
  rw [ht] at hgen
  rw [show ∀ (f : List ColumnMeta → Option (List String × List GenExpr)) c,
        (some c).bind f = f c from fun _ _ => rfl] at hgen
  split at hgen
  · exact absurd hgen (by simp)
  · simp only [Option.some.injEq, Prod.mk.injEq] at hgen
    intro c hc
    rw [← hgen.1] at hc
    rcases List.mem_map.mp hc with ⟨cm, hcm, rfl⟩
    exact List.elem_iff.mp (List.mem_filter.mp hcm).2

/-- C2: every column of an executed bulk-generation INSERT is a
NOT-NULL-without-default column of the target table, and when that
insertable set is empty the operation fails with the no-columns error
on an empty write trace, before touching the database. -/
theorem c2_generation_column_subset (schema : Schema) (table : String)
    (count : Int) (execOk : Bool) (cols : List ColumnMeta)
    (ht : assoc schema.tables table = some cols) :
    (∀ cs es n,
      Event.execGenerate table cs es n ∈ (generate_rows_sql schema table count execOk).1 →
      ∀ c ∈ cs, c ∈ not_null_cols cols) ∧
    (∀ es, genInsertCols schema table = some ([], es) →
      generate_rows_sql schema table count execOk =
        ([], .error (.valueError "No columns to insert (all are PK/DEFAULT)"))) := by
  constructor
  · intro cs es n hmem
    unfold generate_rows_sql at hmem
    cases hgen : genInsertCols schema table with
    | none => rw [hgen] at hmem; simp at hmem
    | some p =>
      obtain ⟨cs2, es2⟩ := p
      rw [hgen] at hmem
      by_cases hE : cs2.isEmpty
      · simp [hE] at hmem
      · have hcs : cs = cs2 := by
          cases execOk <;> simp [hE] at hmem <;> exact hmem.1
        rw [hcs]
        exact genInsertCols_subset schema table cols cs2 es2 ht hgen
  · intro es hgen
    simp [generate_rows_sql, hgen]

/-- C2 witness: on a table with a serial primary key, a required name
column and a nullable note column, the executed generation column is a
NOT-NULL-without-default column; on a table whose only column carries a
default, generation fails with the no-columns error and an empty
trace. -/
theorem c2_generation_column_subset_witness :
    "name" ∈ not_null_cols
      [⟨"id", "integer", false, some "nextval"⟩,
       ⟨"name", "text", false, Option.none⟩,
       ⟨"note", "text", true, Option.none⟩] ∧
    generate_rows_sql ⟨[("u", [⟨"id2", "integer", false, some "nextval"⟩])], [], []⟩
        "u" 3 true =
      ([], .error (.valueError "No columns to insert (all are PK/DEFAULT)")) :=
  ⟨(c2_generation_column_subset
      ⟨[("t", [⟨"id", "integer", false, some "nextval"⟩,
               ⟨"name", "text", false, Option.none⟩,
               ⟨"note", "text", true, Option.none⟩])], [], []⟩
      "t" 5 true _ rfl).1
      ["name"] [.randToken 10] 5 (by decide) "name" (by decide),
   (c2_generation_column_subset
      ⟨[("u", [⟨"id2", "integer", false, some "nextval"⟩])], [], []⟩
      "u" 3 true _ rfl).2 [] rfl⟩

/-- C3 counterexample: a required column of an unrecognized type is
selected for generation with the NULL literal as its expression, not a
fixed-length pseudo-random token. -/
theorem c3_unknown_type_counterexample :
    genInsertCols ⟨[("t", [⟨"payload", "uuid", false, Option.none⟩])], [], []⟩ "t" =
      some (["payload"], [GenExpr.nullExpr]) ∧
    GenExpr.nullExpr ≠ GenExpr.randToken 10 :=
  ⟨rfl, by decide⟩

/-- C3 amended: a non-foreign-key, non-email insertable column that
reaches the character-or-text rule generates a fixed-length
pseudo-random token of length ten, while a column matching no rule at
all generates the NULL literal. -/
theorem c3_text_token_unknown_null (schema : Schema)
    (table colName dataType : String)
    (hfk : fk_lookup schema table colName = Option.none)
    (hmail : strContains "email" (pyLower colName) = false)
    (hint1 : strStarts (pyLower dataType) "integer" = false)
    (hint2 : (pyLower dataType == "bigint") = false)
    (hint3 : (pyLower dataType == "smallint") = false)
    (hnum1 : strStarts (pyLower dataType) "numeric" = false)
    (hnum2 : (pyLower dataType == "real") = false)
    (hnum3 : (pyLower dataType == "double precision") = false)
    (hbool : ¬(pyLower dataType = "boolean"))
    (hts : strContains "timestamp" (pyLower dataType) = false)
    (hdate : strContains "date" (pyLower dataType) = false) :
    ((strContains "character" (pyLower dataType) ||
      strContains "text" (pyLower dataType)) = true →
      genExprFor schema table colName dataType = .randToken 10) ∧
    ((strContains "character" (pyLower dataType) ||
      strContains "text" (pyLower dataType)) = false →
      genExprFor schema table colName dataType = .nullExpr) := by
  constructor <;> intro h <;>
    simp [genExprFor, hfk, hmail, hint1, hint2, hint3, hnum1, hnum2, hnum3,
          hbool, hts, hdate, h]

/-- C3 witness: a text column generates the length-ten token and a
uuid column generates the NULL literal. -/
theorem c3_text_token_unknown_null_witness :
    genExprFor ⟨[], [], []⟩ "t" "body" "text" = .randToken 10 ∧
    genExprFor ⟨[], [], []⟩ "t" "payload" "uuid" = .nullExpr :=
  ⟨(c3_text_token_unknown_null ⟨[], [], []⟩ "t" "body" "text"
      rfl (by decide) (by decide) (by decide) (by decide) (by decide)
      (by decide) (by decide) (by decide) (by decide) (by decide)).1 (by decide),
   (c3_text_token_unknown_null ⟨[], [], []⟩ "t" "payload" "uuid"
      rfl (by decide) (by decide) (by decide) (by decide) (by decide)
      (by decide) (by decide) (by decide) (by decide) (by decide)).2 (by decide)⟩

/-- C4 counterexample: a column present in the values mapping with a
blank value has an absent cast result yet is included in the INSERT
column list with a null parameter, and the operation succeeds instead
of failing with the no-insertable-columns error. -/
theorem c4_blank_value_counterexample :
    insert_entry_validated "t" [("a", "")] [("a", "text")] true =
      ([.execInsert "t" ["a"] [.none], .commit], .ok true) :=
  rfl

/-- The INSERT column list built by buildInsertCols is exactly the
columns of the column-type mapping present in the values mapping. -/
theorem buildInsertCols_cols (vd : List (String × String)) :
    ∀ ct cols vals, buildInsertCols vd ct = .ok (cols, vals) →
      cols = (ct.map Prod.fst).filter (fun c => (assoc vd c).isSome) := by
  intro ct
  induction ct with
  | nil =>
    intro cols vals h
    simp only [buildInsertCols, Except.ok.injEq, Prod.mk.injEq] at h
    simp [← h.1]
  | cons p rest ih =>
    obtain ⟨col, dtype⟩ := p
    intro cols vals h
    cases hv : assoc vd col with
    | none =>
      simp only [buildInsertCols, hv] at h
      simpa [hv] using ih cols vals h
    | some val =>
      simp only [buildInsertCols, hv] at h
      rcases hpv : (if val = "" then Except.ok Option.none
                    else cast_value_from_input (some val) dtype) with e | pv
      · rw [hpv] at h; exact absurd h (by simp)
      · rw [hpv] at h
        rcases hr : buildInsertCols vd rest with e2 | pr
        · rw [hr] at h; exact absurd h (by simp)
        · obtain ⟨cs, vs⟩ := pr
          rw [hr] at h
          simp only [Except.ok.injEq, Prod.mk.injEq] at h
          rw [← h.1]
          simp [hv, ih cs vs hr]

/-- C4 amended: the INSERT column list is exactly the set of columns of
the column-type mapping that appear in the supplied values mapping — a
blank value is included with a null parameter rather than excluded —
and when no column of the table appears in the mapping the operation
fails with the no-columns error on an empty write trace. -/
theorem c4_insert_column_selection (table : String)
    (vd ct : List (String × String)) (cols : List String) (vals : List PyVal)
    (h : buildInsertCols vd ct = .ok (cols, vals)) :
    cols = (ct.map Prod.fst).filter (fun c => (assoc vd c).isSome) ∧
    (cols = [] → ∀ execOk,
      insert_entry_validated table vd ct execOk =
        ([], .error (.valueError "No columns to insert."))) := by
  refine ⟨buildInsertCols_cols vd ct cols vals h, ?_⟩
  intro hnil execOk
  subst hnil
  simp [insert_entry_validated, h]

/-- C4 witness: with an empty values mapping the insert fails with the
no-columns error before any statement reaches the session. -/
theorem c4_insert_column_selection_witness :
    insert_entry_validated "t" [] [("a", "text")] true =
      ([], .error (.valueError "No columns to insert.")) :=
  (c4_insert_column_selection "t" [] [("a", "text")] [] [] rfl).2 rfl true

/-- C6 counterexample: casting a raw string with surrounding spaces for
a text column returns the stripped string, not the raw string
unchanged; moreover the ad-hoc filter-bound path does not route through
this cast mapping: on the same numeric input the cast raises while the
filter emits a zero literal. -/
theorem c6_text_cast_counterexample :
    cast_value_from_input (some " a ") "text" = .ok (some (.str "a")) ∧
    (" a " : String) ≠ "a" ∧
    cast_value_from_input (some "abc") "numeric" =
      .error (.valueError "could not convert string to float") ∧
    literal_for_numeric "abc" = "0" :=
  ⟨rfl, by decide, rfl, rfl⟩

/-- C6 amended: for a text-category column the cast returns the
stripped raw string — the identity exactly when the raw string carries
no surrounding whitespace — and the insert and update write paths bind
precisely this cast result as the statement parameter. -/
theorem c6_text_cast_stripped (s dataType : String)
    (htext : (strContains "character" (pyLower dataType) ||
              strContains "text" (pyLower dataType)) = true)
    (hs : pyStrip s ≠ "") :
    cast_value_from_input (some s) dataType = .ok (some (.str (pyStrip s))) ∧
    (pyStrip s = s → cast_value_from_input (some s) dataType = .ok (some (.str s))) ∧
    (∀ schema table column row_id ct idc aff,
      assoc ct column = some dataType →
      find_pk_column schema table = some idc →
      update_entry_validated schema table column row_id s ct true aff =
        ([.execUpdate table column idc [.str (pyStrip s), .str row_id], .commit],
         .ok (aff > 0))) ∧
    (∀ vd col rest cs vs,
      assoc vd col = some s → s ≠ "" →
      buildInsertCols vd rest = .ok (cs, vs) →
      buildInsertCols vd ((col, dataType) :: rest) =
        .ok (col :: cs, .str (pyStrip s) :: vs)) := by
  have hcast : cast_value_from_input (some s) dataType =
      .ok (some (.str (pyStrip s))) := by
    simp [cast_value_from_input, hs, htext]
  refine ⟨hcast, ?_, ?_, ?_⟩
  · intro hid
    rw [hcast, hid]
  · intro schema table column row_id ct idc aff hcol hpk
    simp [update_entry_validated, hcol, hcast, hpk, pvOfOpt]
  · intro vd col rest cs vs hv hne hr
    simp [buildInsertCols, hv, hne, hcast, hr, pvOfOpt]

/-- C6 witness: a stripped non-blank raw string for a text column casts
to itself. -/
theorem c6_text_cast_stripped_witness :
    cast_value_from_input (some "v") "text" = .ok (some (.str "v")) :=
  (c6_text_cast_stripped "v" "text" (by decide) (by decide)).2.1 rfl

end DBApp
